import Mathlib

/-!
Shallow embedding of the `waterfall` RTMP publish-bench tool (src/src/main.rs).

The program is a single `main` that
  1. parses CLI arguments (clap) with two mutually exclusive destination modes,
  2. resolves the list of destination URL strings (generated from a prefix and a
     concurrency count, or read from a list file),
  3. parses every URL and panics on the first parse error,
  4. asserts the input path ends with ".flv" or ".FLV",
  5. opens the FLV packet stream,
  6. creates one broadcast subscription and one publish client per URL,
  7. awaits all client setup futures,
  8. runs the broadcast loop: `while let Some(Ok(msg)) = msgs.next().await`,
     breaking when `tx.receiver_count() <= 0` or `tx.send` fails.

We model `main` as a pure function from the arguments and an environment (file
contents, the packet stream the FLV reader yields, and the number of live client
receivers over time) to a `RunResult` carrying the event trace, the spawned
clients, the packets actually sent, and the process exit.
-/

namespace Waterfall

/-- MediaPacket, translated from `PacketType` in main.rs: `Metadata` carries a
shared `StreamMetadata` (external type, modelled as an uninterpreted string),
`Video` and `Audio` carry a byte payload and an RTMP timestamp. -/
inductive PacketType where
  | metadata (props : String)
  | video (data : List UInt8) (ts : Nat)
  | audio (data : List UInt8) (ts : Nat)
deriving DecidableEq, Repr

/-- A resolved RTMP destination. Modelled from the spec: `rtmp_url::Url` lives in
src/rtmp_url.rs, which is absent; spec section 6 gives the shape
`scheme://host[:port]/application/stream_key` with host, application and stream
key mandatory and the port optional with the protocol default. -/
structure Url where
  host : String
  port : Nat
  app : String
  streamKey : String
deriving DecidableEq, Repr

/-- Splitting a character list at every occurrence of a separator, with the
semantics of Rust `str::split`: `"a/b"` gives `["a", "b"]`, an empty input gives
`[""]`, adjacent separators give empty pieces. -/
def splitOnChar (sep : Char) : List Char → List (List Char)
  | [] => [[]]
  | c :: rest =>
    if c = sep then [] :: splitOnChar sep rest
    else
      match splitOnChar sep rest with
      | [] => [[c]]
      | h :: t => (c :: h) :: t

/-- Decimal digits to a number, `none` unless the list is nonempty and all
ASCII digits. -/
def digitsToNat? (cs : List Char) : Option Nat :=
  if cs ≠ [] ∧ cs.all Char.isDigit then
    some (cs.foldl (fun a c => a * 10 + (c.toNat - 48)) 0)
  else none

/-- Modelled from the spec: `rtmp_url::parse_rtmp_url` lives in src/rtmp_url.rs,
which is absent. Spec section 4.1 and 6: the entry must conform to
`scheme://host[:port]/application/stream_key` for the RTMP scheme; scheme, host,
application and stream key are mandatory; port is optional and defaults to the
protocol default 1935; a non-conforming entry is a `UrlParseError`. -/
def parse_rtmp_url (s : String) : Except String Url :=
  let cs := s.data
  if "rtmp://".data.isPrefixOf cs then
    match splitOnChar '/' (cs.drop 7) with
    | [hostport, app, key] =>
      if hostport = [] ∨ app = [] ∨ key = [] then
        Except.error ("malformed RTMP url: " ++ s)
      else
        match splitOnChar ':' hostport with
        | [h] => Except.ok ⟨String.mk h, 1935, String.mk app, String.mk key⟩
        | [h, p] =>
          if h = [] then Except.error ("malformed RTMP url: " ++ s)
          else
            match digitsToNat? p with
            | some pn => Except.ok ⟨String.mk h, pn, String.mk app, String.mk key⟩
            | none => Except.error ("malformed RTMP url: " ++ s)
        | _ => Except.error ("malformed RTMP url: " ++ s)
    | _ => Except.error ("malformed RTMP url: " ++ s)
  else Except.error ("unsupported scheme: " ++ s)

/-- The command-line arguments, at the granularity clap hands them to `main`:
each option is present with a raw string value or absent. -/
structure Args where
  input : Option String
  repeatFlag : Bool
  concurrency : Option String
  pfx : Option String
  destListFile : Option String
deriving DecidableEq, Repr

/-- How the process can end other than returning `Ok(())`: a clap usage error
(exit nonzero at `get_matches`), an io::Error returned through `?` (exit
nonzero), or a panic (exit nonzero). -/
inductive RunError where
  | clap (msg : String)
  | io (msg : String)
  | panicked (msg : String)
deriving DecidableEq, Repr

/-- Modelled from the spec: clap argument resolution is an external collaborator
(spec section 1 and 6). The groups declared in main.rs lines 104-110 are:
`prefix group` = PREFIX, conflicts with DEST_LIST_FILE, requires CONCURRENCY;
`list group` = DEST_LIST_FILE, conflicts with the prefix group and with
CONCURRENCY; INPUT is `required(true)`. Neither group is itself required, so
clap accepts an invocation with no destination mode at all. clap exits the
process nonzero on a conflict or a missing requirement. -/
def clapCheck (a : Args) : Option RunError :=
  if a.input.isNone then some (RunError.clap "required argument INPUT missing")
  else if a.pfx.isSome && a.destListFile.isSome then
    some (RunError.clap "PREFIX conflicts with DEST_LIST_FILE")
  else if a.pfx.isSome && a.concurrency.isNone then
    some (RunError.clap "PREFIX requires CONCURRENCY")
  else if a.destListFile.isSome && a.concurrency.isSome then
    some (RunError.clap "DEST_LIST_FILE conflicts with CONCURRENCY")
  else none

/-- Rust `str::parse::<usize>` on a 64-bit target: an optional leading `+`, then
one or more ASCII digits, value below 2^64; anything else is a parse error. -/
def parseUsize (s : String) : Option Nat :=
  let cs := match s.data with
    | '+' :: rest => rest
    | cs => cs
  if cs = [] then none
  else if cs.all Char.isDigit then
    let n := cs.foldl (fun a c => a * 10 + (c.toNat - 48)) 0
    if n < 18446744073709551616 then some n else none
  else none

/-- Destination URL strings generated in prefix mode, translated from
main.rs line 118: `(0..concurrency).map(move |c| format!("{}{}", prefix, c))`. -/
def genUrls (p : String) (n : Nat) : List String :=
  (List.range n).map (fun c => p ++ Nat.repr c)

/-- The events of a run we track for ordering properties: opening the
destination list file, the abort on a bad URL, opening the input file, creating
the i-th broadcast subscription, creating the i-th publish client, awaiting all
client setup futures (where connections are first made: the client futures are
inert until polled at `clients.collect().await`), and the k-th successful send
into the broadcast channel. -/
inductive Event where
  | openListFile
  | abortUrlError
  | openInput
  | subscribe (i : Nat)
  | spawnClient (i : Nat)
  | awaitClients
  | publish (k : Nat)
deriving DecidableEq, Repr

/-- The environment a run executes in: whether the destination list file opens,
its lines, whether the input file opens, the sequence of items the FLV packet
stream yields (modelled from the spec, section 4.2: the reader produces a
sequence of `Result<MediaPacket, DecodeError>`; src/flv.rs is absent), and the
number of live client receivers at each observation instant. -/
structure Env where
  destOpenOk : Bool
  destLines : List String
  inputOpenOk : Bool
  stream : List (Except String PacketType)
  liveClients : Nat → Nat

/-- Resolving the destination URL strings, translated from main.rs lines
113-127. In prefix mode the concurrency string is parsed with
`.expect("Cannot parse CONCURRENCY")` (panic on failure) and defaults to 1 when
absent; otherwise `matches.value_of("DEST_LIST_FILE").unwrap()` panics when the
positional argument is absent, and `File::open(..)?` returns an io::Error when
the list file cannot be opened. Returns the events performed and the outcome. -/
def resolveUrlStrings (a : Args) (env : Env) :
    List Event × Except RunError (List String) :=
  match a.pfx with
  | some p =>
    let n := match a.concurrency with
      | none => some 1
      | some c => parseUsize c
    match n with
    | none => ([], Except.error (RunError.panicked "Cannot parse CONCURRENCY"))
    | some n => ([], Except.ok (genUrls p n))
  | none =>
    match a.destListFile with
    | none =>
      ([], Except.error
        (RunError.panicked "called Option::unwrap() on a None value"))
    | some _path =>
      if env.destOpenOk then ([Event.openListFile], Except.ok env.destLines)
      else ([Event.openListFile], Except.error (RunError.io "cannot open dest list file"))

/-- The first URL parse error, translated from main.rs line 131:
`urls.iter().find(|u| u.is_err())`. -/
def firstUrlError : List (Except String Url) → Option String
  | [] => none
  | Except.error e :: _ => some e
  | Except.ok _ :: rest => firstUrlError rest

/-- What the abort message reports, translated from main.rs line 132: the panic
carries exactly the one error found by `find`. -/
def reportedUrlErrors (rs : List (Except String Url)) : List String :=
  match firstUrlError rs with
  | some e => [e]
  | none => []

/-- Stated from the spec's words, for comparison with `reportedUrlErrors`
(spec section 4.1: "All parse failures are collected and reported together"):
every parse error in the list, in order. -/
def specAllUrlErrors (rs : List (Except String Url)) : List String :=
  rs.filterMap (fun r =>
    match r with
    | Except.error e => some e
    | Except.ok _ => none)

/-- Rust `str::ends_with` with a string pattern: the pattern's characters are a
suffix of the subject's. -/
def strEndsWith (s suf : String) : Bool :=
  suf.data.isSuffixOf s.data

/-- The input pre-flight check, translated from main.rs line 138:
`input_file_path.ends_with(".flv") || input_file_path.ends_with(".FLV")`. -/
def inputCheckOk (path : String) : Bool :=
  strEndsWith path ".flv" || strEndsWith path ".FLV"

/-- ASCII lowercasing of one character. -/
def lowerAscii (c : Char) : Char :=
  if 'A' ≤ c ∧ c ≤ 'Z' then Char.ofNat (c.toNat + 32) else c

/-- Stated from the spec's words, for comparison with `inputCheckOk` (spec
section 6: the input extension "must match the supported format
(case-insensitive)"): the path, lowercased, ends with ".flv". -/
def specExtMatchesCaseInsensitive (path : String) : Bool :=
  ".flv".data.isSuffixOf (path.data.map lowerAscii)

/-- One publish client, translated from main.rs lines 145-148: each client
owns the destination URL and the broadcast subscription created for it (we
record the subscription by its creation index). -/
structure Client where
  url : Url
  sub : Nat
deriving DecidableEq, Repr

/-- Client creation from the i-th URL onward, translated from the `for url in
urls` loop of main.rs lines 145-149: each URL gets the next fresh
`tx.subscribe()` (numbered in creation order) and one client. -/
def spawnClientsFrom (i : Nat) : List Url → List Client
  | [] => []
  | u :: rest => ⟨u, i⟩ :: spawnClientsFrom (i + 1) rest

/-- Client creation, translated from main.rs lines 144-149: one client per URL,
each with its own fresh `tx.subscribe()`. -/
def spawnClients (urls : List Url) : List Client :=
  spawnClientsFrom 0 urls

/-- Modelled from the spec: `rtmp::client::Client` lives in src/rtmp/, which is
absent. Spec section 4.4: "one Publisher instance = one connection attempt for
the run's lifetime" — each client performs exactly one connection attempt. -/
def connectionAttempts (_c : Client) : Nat := 1

/-- The subscription and spawn events of client creation, in program order:
for each URL index i, first `tx.subscribe()` then pushing the client future. -/
def setupEvents (n : Nat) : List Event :=
  ((List.range n).map (fun i => [Event.subscribe i, Event.spawnClient i])).flatten

/-- How the broadcast loop of main.rs lines 159-171 ended. -/
inductive LoopExit where
  | streamEnd
  | decodeErr (e : String)
  | noSubscribers
  | sendFailed
deriving DecidableEq, Repr

/-- The receiver count the pacer observes at instant t. main.rs line 142 binds
`let (tx, _rx) = tokio::sync::broadcast::channel(1024)`: the binding `_rx` is a
live receiver for the whole of `main` (a leading underscore only silences the
unused-variable warning; it does not drop the value), so the count is always
one more than the number of live client receivers. -/
def receiverCount (env : Env) (t : Nat) : Nat :=
  env.liveClients t + 1

/-- The broadcast loop, translated from main.rs lines 159-171:
`while let Some(Ok(msg)) = msgs.next().await` ends the loop on stream end and on
a decode-error item; inside, `tx.receiver_count() <= 0` breaks with a warning,
and a failing `tx.send(msg)` breaks with a warning. The receiver count is
sampled at instant 2k for iteration k's check and 2k+1 for its send. Returns the
packets actually delivered to the channel and how the loop ended. -/
def broadcastLoop (env : Env) :
    List (Except String PacketType) → Nat → List PacketType × LoopExit
  | [], _ => ([], LoopExit.streamEnd)
  | Except.error e :: _, _ => ([], LoopExit.decodeErr e)
  | Except.ok msg :: rest, k =>
    if receiverCount env (2 * k) ≤ 0 then ([], LoopExit.noSubscribers)
    else if receiverCount env (2 * k + 1) = 0 then ([], LoopExit.sendFailed)
    else
      let r := broadcastLoop env rest (k + 1)
      (msg :: r.1, r.2)

deriving instance DecidableEq for Except

/-- The observable outcome of a run: the event trace, the clients created, the
packets sent into the channel, how the broadcast loop ended (when reached), and
the process exit. -/
structure RunResult where
  events : List Event
  clients : List Client
  published : List PacketType
  loopExit : Option LoopExit
  exit : Except RunError Unit
deriving DecidableEq, Repr

/-- The whole of `main`, translated from main.rs lines 69-175, staged in source
order: clap resolution, URL-string resolution, URL parsing with a panic carrying
the first error, the FLV-extension assert, opening the input, client creation
(one subscription and one client per URL), awaiting all client setup futures,
then the broadcast loop; a normal return is `Ok(())`. -/
def mainModel (a : Args) (env : Env) : RunResult :=
  match clapCheck a with
  | some e => ⟨[], [], [], none, Except.error e⟩
  | none =>
    match resolveUrlStrings a env with
    | (es1, Except.error e) => ⟨es1, [], [], none, Except.error e⟩
    | (es1, Except.ok urlStrings) =>
      let parsed := urlStrings.map parse_rtmp_url
      match firstUrlError parsed with
      | some e =>
        ⟨es1 ++ [Event.abortUrlError], [], [], none,
          Except.error (RunError.panicked ("RTMP url error: " ++ e))⟩
      | none =>
        let urls := parsed.filterMap Except.toOption
        if inputCheckOk (a.input.getD "") then
          if env.inputOpenOk then
            let clients := spawnClients urls
            let lp := broadcastLoop env env.stream 0
            ⟨es1 ++ [Event.openInput] ++ setupEvents urls.length
                ++ [Event.awaitClients]
                ++ (List.range lp.1.length).map Event.publish,
              clients, lp.1, some lp.2, Except.ok ()⟩
          else
            ⟨es1 ++ [Event.openInput], [], [], none,
              Except.error (RunError.io "cannot open input file")⟩
        else
          ⟨es1, [], [], none,
            Except.error (RunError.panicked "Only FLV files are supported")⟩

/-- Whether an event is a send into the distribution channel. -/
def isPublishEv : Event → Bool
  | Event.publish _ => true
  | _ => false

/-- Whether an event is part of publisher setup: creating a subscription,
creating a client, or awaiting all client setup futures. -/
def isSetupEv : Event → Bool
  | Event.subscribe _ => true
  | Event.spawnClient _ => true
  | Event.awaitClients => true
  | _ => false

/-- Whether an event involves network activity: connections are first made when
the client setup futures are polled at `clients.collect().await`, and each
successful send feeds every live connection. -/
def isNetworkEv : Event → Bool
  | Event.awaitClients => true
  | Event.publish _ => true
  | _ => false

/-! ### Basic facts about the embedded definitions -/

/-- The pacer always observes at least one receiver: the `_rx` kept by `main`. -/
theorem receiverCount_pos (env : Env) (t : Nat) : 0 < receiverCount env t :=
  Nat.succ_pos _

/-- URL-string resolution performs at most the list-file open; in particular
no network event and no publish event. -/
theorem resolveUrlStrings_events (a : Args) (env : Env) :
    (resolveUrlStrings a env).1 = [] ∨
    (resolveUrlStrings a env).1 = [Event.openListFile] := by
  unfold resolveUrlStrings
  cases hp : a.pfx with
  | some p =>
    cases hc : a.concurrency with
    | none => simp
    | some c => cases hn : parseUsize c <;> simp [hn]
  | none =>
    cases hd : a.destListFile with
    | none => simp
    | some f => by_cases h : env.destOpenOk <;> simp [h]

/-- Events of URL-string resolution are neither network nor publish nor setup
events. -/
theorem resolveUrlStrings_events_benign (a : Args) (env : Env) :
    ∀ ev ∈ (resolveUrlStrings a env).1,
      isNetworkEv ev = false ∧ isPublishEv ev = false ∧ isSetupEv ev = false := by
  intro ev hev
  rcases resolveUrlStrings_events a env with h | h <;> rw [h] at hev
  · simp at hev
  · simp at hev
    subst hev
    exact ⟨rfl, rfl, rfl⟩

/-- When every entry parsed, `find` sees no error. -/
theorem firstUrlError_none_of_all_ok (rs : List (Except String Url))
    (h : ∀ r ∈ rs, Except.isOk r = true) : firstUrlError rs = none := by
  induction rs with
  | nil => rfl
  | cons r rest ih =>
    cases r with
    | error e =>
      have := h _ (List.mem_cons_self _ _)
      simp [Except.isOk, Except.toBool] at this
    | ok u => exact ih (fun r hr => h r (List.mem_cons_of_mem _ hr))

/-- Unwrapping a list of results that are all `ok` keeps the length. -/
theorem filterMap_toOption_length {ε α : Type} (rs : List (Except ε α))
    (h : ∀ r ∈ rs, Except.isOk r = true) :
    (rs.filterMap Except.toOption).length = rs.length := by
  induction rs with
  | nil => rfl
  | cons r rest ih =>
    cases r with
    | error e =>
      have := h _ (List.mem_cons_self _ _)
      simp [Except.isOk, Except.toBool] at this
    | ok u =>
      simp [List.filterMap_cons, Except.toOption,
        ih (fun r hr => h r (List.mem_cons_of_mem _ hr))]

/-- The clients carry exactly the resolved URLs, in order. -/
theorem spawnClientsFrom_map_url (i : Nat) (l : List Url) :
    (spawnClientsFrom i l).map Client.url = l := by
  induction l generalizing i with
  | nil => rfl
  | cons u rest ih => simp [spawnClientsFrom, ih]

/-- The subscription numbers of the clients spawned from counter i. -/
theorem spawnClientsFrom_map_sub (i : Nat) (l : List Url) :
    (spawnClientsFrom i l).map Client.sub = List.range' i l.length := by
  induction l generalizing i with
  | nil => rfl
  | cons u rest ih => simp [spawnClientsFrom, ih, List.range'_succ]

/-- Each client owns its own subscription: the subscription numbers are
0, 1, ..., one per client. -/
theorem spawnClients_map_sub (l : List Url) :
    (spawnClients l).map Client.sub = List.range l.length := by
  rw [spawnClients, spawnClientsFrom_map_sub, List.range_eq_range']

/-- One client per URL. -/
theorem spawnClientsFrom_length (i : Nat) (l : List Url) :
    (spawnClientsFrom i l).length = l.length := by
  induction l generalizing i with
  | nil => rfl
  | cons u rest ih => simp [spawnClientsFrom, ih]

/-- One client per URL. -/
theorem spawnClients_length (l : List Url) :
    (spawnClients l).length = l.length :=
  spawnClientsFrom_length 0 l

/-- The total number of connection attempts equals the number of clients. -/
theorem sum_connectionAttempts (cs : List Client) :
    (cs.map connectionAttempts).sum = cs.length := by
  induction cs with
  | nil => rfl
  | cons c rest ih =>
    simp [connectionAttempts, ih, Nat.add_comm]

/-- Setup events are subscriptions and spawns, never publishes. -/
theorem setupEvents_no_publish (n : Nat) :
    ∀ e ∈ setupEvents n, isPublishEv e = false := by
  intro e he
  simp [setupEvents, List.mem_flatten, List.mem_map, List.mem_range] at he
  obtain ⟨i, _, h⟩ := he
  rcases h with h | h <;> subst h <;> rfl

/-- Every subscription below the client count appears among the setup events. -/
theorem subscribe_mem_setupEvents (n k : Nat) (h : k < n) :
    Event.subscribe k ∈ setupEvents n := by
  simpa [setupEvents, List.mem_flatten, List.mem_map, List.mem_range] using h

/-- A broadcast-loop iteration whose head is an `ok` packet never breaks:
the receiver count includes `_rx` and is positive at both samples. -/
theorem broadcastLoop_cons_ok (env : Env) (msg : PacketType)
    (rest : List (Except String PacketType)) (k : Nat) :
    broadcastLoop env (Except.ok msg :: rest) k =
      (msg :: (broadcastLoop env rest (k + 1)).1,
        (broadcastLoop env rest (k + 1)).2) := by
  have h1 : ¬ receiverCount env (2 * k) ≤ 0 :=
    Nat.not_le.mpr (receiverCount_pos env (2 * k))
  have h2 : ¬ receiverCount env (2 * k + 1) = 0 :=
    Nat.pos_iff_ne_zero.mp (receiverCount_pos env (2 * k + 1))
  simp [broadcastLoop, h1, h2]

/-- The broadcast loop runs through an all-`ok` prefix and stops at the first
decode-error item, delivering exactly the prefix packets. -/
theorem broadcastLoop_err (env : Env) (pre : List (Except String PacketType))
    (e : String) (rest : List (Except String PacketType)) :
    ∀ k, (∀ r ∈ pre, Except.isOk r = true) →
    broadcastLoop env (pre ++ Except.error e :: rest) k =
      (pre.filterMap Except.toOption, LoopExit.decodeErr e) := by
  induction pre with
  | nil => intro k _; simp [broadcastLoop]
  | cons r pre ih =>
    intro k hall
    cases r with
    | error e' =>
      have := hall _ (List.mem_cons_self _ _)
      simp [Except.isOk, Except.toBool] at this
    | ok msg =>
      rw [List.cons_append, broadcastLoop_cons_ok,
        ih (k + 1) (fun r hr => hall r (List.mem_cons_of_mem _ hr))]
      simp [List.filterMap_cons, Except.toOption]

/-- The broadcast loop delivers every packet of an all-`ok` stream and ends at
stream end: the receiver count never reaches zero. -/
theorem broadcastLoop_all_ok (env : Env) (s : List (Except String PacketType)) :
    ∀ k, (∀ r ∈ s, Except.isOk r = true) →
    broadcastLoop env s k = (s.filterMap Except.toOption, LoopExit.streamEnd) := by
  induction s with
  | nil => intro k _; simp [broadcastLoop]
  | cons r rest ih =>
    intro k hall
    cases r with
    | error e =>
      have := hall _ (List.mem_cons_self _ _)
      simp [Except.isOk, Except.toBool] at this
    | ok msg =>
      rw [broadcastLoop_cons_ok,
        ih (k + 1) (fun r hr => hall r (List.mem_cons_of_mem _ hr))]
      simp [List.filterMap_cons, Except.toOption]

/-- The broadcast loop never ends through the zero-subscriber check nor through
a failed send: `_rx` keeps the receiver count positive for the whole run. -/
theorem broadcastLoop_never_noSubscribers (env : Env)
    (s : List (Except String PacketType)) :
    ∀ k, (broadcastLoop env s k).2 ≠ LoopExit.noSubscribers ∧
      (broadcastLoop env s k).2 ≠ LoopExit.sendFailed := by
  induction s with
  | nil => intro k; simp [broadcastLoop]
  | cons r rest ih =>
    intro k
    cases r with
    | error e => simp [broadcastLoop]
    | ok msg => rw [broadcastLoop_cons_ok]; exact ih (k + 1)

/-- The shape of a run that passes every pre-flight check. -/
theorem mainModel_happy (a : Args) (env : Env) (es : List Event)
    (us : List String)
    (hclap : clapCheck a = none)
    (hres : resolveUrlStrings a env = (es, Except.ok us))
    (hok : firstUrlError (us.map parse_rtmp_url) = none)
    (hext : inputCheckOk (a.input.getD "") = true)
    (hopen : env.inputOpenOk = true) :
    mainModel a env =
      ⟨es ++ [Event.openInput]
          ++ setupEvents ((us.map parse_rtmp_url).filterMap Except.toOption).length
          ++ [Event.awaitClients]
          ++ (List.range (broadcastLoop env env.stream 0).1.length).map Event.publish,
        spawnClients ((us.map parse_rtmp_url).filterMap Except.toOption),
        (broadcastLoop env env.stream 0).1,
        some (broadcastLoop env env.stream 0).2,
        Except.ok ()⟩ := by
  simp [mainModel, hclap, hres, hok, hext, hopen]

/-! ### Concrete runs used in witnesses and counterexamples -/

/-- An environment with an empty destination file, an empty packet stream and
no live client receivers. -/
def envEmpty : Env := ⟨true, [], true, [], fun _ => 0⟩

/-! ### C6: prefix mode generates exactly prefix ++ 0 .. prefix ++ (N-1) -/

/-- C6: in prefix mode, with the concurrency string parsing to n, the resolved
destination-string list is exactly `p ++ "0"`, ..., `p ++ (n-1)`, in order. -/
theorem C6_prefix_mode_urls (a : Args) (env : Env) (p c : String) (n : Nat)
    (hp : a.pfx = some p) (hc : a.concurrency = some c)
    (hn : parseUsize c = some n) :
    resolveUrlStrings a env = ([], Except.ok (genUrls p n)) ∧
    (genUrls p n).length = n ∧
    ∀ i, i < n → (genUrls p n).getD i "" = p ++ Nat.repr i := by
  refine ⟨by simp [resolveUrlStrings, hp, hc, hn], by simp [genUrls], ?_⟩
  intro i hi
  have hlen : i < ((List.range n).map (fun c => p ++ Nat.repr c)).length := by
    simpa using hi
  rw [genUrls, List.getD_eq_getElem _ _ hlen]
  simp

/-- The arguments of the C6 witness run: prefix mode, prefix "s_",
concurrency "3". -/
def argsC6w : Args := ⟨some "a.flv", false, some "3", some "s_", none⟩

/-- C6 witness at prefix "s_" and concurrency "3". -/
theorem C6_prefix_mode_urls_witness :
    resolveUrlStrings argsC6w envEmpty = ([], Except.ok (genUrls "s_" 3)) ∧
    (genUrls "s_" 3).getD 2 "" = "s_" ++ Nat.repr 2 := by
  have h := C6_prefix_mode_urls argsC6w envEmpty "s_" "3" 3 rfl rfl (by decide)
  exact ⟨h.1, h.2.2 2 (by decide)⟩

/-! ### C10: unparseable concurrency panics before anything happens -/

/-- C10: when the concurrency value does not parse as an unsigned integer, the
run panics during argument processing: the event trace is empty, so the input
file is never opened and no network activity occurs, and the exit is nonzero
(a panic). -/
theorem C10_bad_concurrency_panics (a : Args) (env : Env) (c : String)
    (hin : a.input.isSome = true) (hp : a.pfx.isSome = true)
    (hd : a.destListFile = none) (hc : a.concurrency = some c)
    (hbad : parseUsize c = none) :
    mainModel a env = ⟨[], [], [], none,
      Except.error (RunError.panicked "Cannot parse CONCURRENCY")⟩ := by
  obtain ⟨ip, hip⟩ := Option.isSome_iff_exists.mp hin
  obtain ⟨p, hp'⟩ := Option.isSome_iff_exists.mp hp
  have hclap : clapCheck a = none := by simp [clapCheck, hip, hp', hd, hc]
  simp [mainModel, hclap, resolveUrlStrings, hp', hc, hbad]

/-- The arguments of the C10 witness run: concurrency "abc". -/
def argsC10w : Args := ⟨some "a.flv", false, some "abc", some "s_", none⟩

/-- C10 witness at the unparseable concurrency value "abc". -/
theorem C10_bad_concurrency_panics_witness :
    mainModel argsC10w envEmpty = ⟨[], [], [], none,
      Except.error (RunError.panicked "Cannot parse CONCURRENCY")⟩ :=
  C10_bad_concurrency_panics argsC10w envEmpty "abc" rfl rfl rfl rfl (by decide)

/-! ### C8: the destination modes are mutually exclusive and one is mandatory -/

/-- C8: with both destination modes given, or with neither, the run fails and
exits nonzero with an empty event trace: no destination file opened, no input
decoding, no network activity, nothing published. -/
theorem C8_exclusive_modes (a : Args) (env : Env)
    (hin : a.input.isSome = true)
    (h : (a.pfx.isSome = true ∧ a.destListFile.isSome = true) ∨
         (a.pfx = none ∧ a.destListFile = none)) :
    (∃ e, (mainModel a env).exit = Except.error e) ∧
    (mainModel a env).events = [] ∧
    (mainModel a env).published = [] ∧
    (mainModel a env).clients = [] := by
  obtain ⟨ip, hip⟩ := Option.isSome_iff_exists.mp hin
  rcases h with ⟨h1, h2⟩ | ⟨h1, h2⟩
  · have hclap : clapCheck a =
        some (RunError.clap "PREFIX conflicts with DEST_LIST_FILE") := by
      simp [clapCheck, hip, h1, h2]
    exact ⟨⟨RunError.clap "PREFIX conflicts with DEST_LIST_FILE",
        by simp [mainModel, hclap]⟩,
      by simp [mainModel, hclap], by simp [mainModel, hclap],
      by simp [mainModel, hclap]⟩
  · have hclap : clapCheck a = none := by simp [clapCheck, hip, h1, h2]
    have hm : mainModel a env = ⟨[], [], [], none, Except.error
        (RunError.panicked "called Option::unwrap() on a None value")⟩ := by
      simp [mainModel, hclap, resolveUrlStrings, h1, h2]
    exact ⟨⟨_, by rw [hm]⟩, by rw [hm], by rw [hm], by rw [hm]⟩

/-- The arguments of the C8 witness run: both a prefix and a list file. -/
def argsC8w : Args := ⟨some "a.flv", false, none, some "s_", some "targets.txt"⟩

/-- C8 witness with both destination modes given. -/
theorem C8_exclusive_modes_witness :
    (∃ e, (mainModel argsC8w envEmpty).exit = Except.error e) ∧
    (mainModel argsC8w envEmpty).events = [] ∧
    (mainModel argsC8w envEmpty).published = [] ∧
    (mainModel argsC8w envEmpty).clients = [] :=
  C8_exclusive_modes argsC8w envEmpty rfl (Or.inl ⟨rfl, rfl⟩)

/-! ### C1: the abort on malformed URLs reports only the first failure -/

/-- The arguments of the C1 counterexample run: list-file mode. -/
def argsC1 : Args := ⟨some "a.flv", false, none, none, some "targets.txt"⟩

/-- The environment of the C1 counterexample run: a destination list with two
malformed URLs. -/
def envC1 : Env := ⟨true, ["http://h/a/k", "rtmp://h/app"], true, [], fun _ => 0⟩

/-- The parse results of the C1 counterexample destinations. -/
def parsedC1 : List (Except String Url) :=
  ["http://h/a/k", "rtmp://h/app"].map parse_rtmp_url

/-- C1 counterexample: with two malformed destinations the run aborts before
any network activity, but the abort message carries only the first parse
failure; the collected list of every failure has two entries and differs from
what is reported. -/
theorem C1_counterexample :
    (mainModel argsC1 envC1).exit = Except.error (RunError.panicked
      "RTMP url error: unsupported scheme: http://h/a/k") ∧
    (specAllUrlErrors parsedC1).length = 2 ∧
    reportedUrlErrors parsedC1 ≠ specAllUrlErrors parsedC1 := by decide

/-- C1 amended: when any resolved destination is malformed, the run aborts (a
panic, nonzero exit) before any network activity and publishes nothing; the
abort message reports the first parse failure in list order, and only that
one. -/
theorem C1_abort_reports_first_error (a : Args) (env : Env) (es : List Event)
    (us : List String) (e : String)
    (hclap : clapCheck a = none)
    (hres : resolveUrlStrings a env = (es, Except.ok us))
    (herr : firstUrlError (us.map parse_rtmp_url) = some e) :
    (mainModel a env).exit =
      Except.error (RunError.panicked ("RTMP url error: " ++ e)) ∧
    (mainModel a env).events = es ++ [Event.abortUrlError] ∧
    (∀ ev ∈ (mainModel a env).events, isNetworkEv ev = false) ∧
    (mainModel a env).published = [] ∧
    reportedUrlErrors (us.map parse_rtmp_url) = [e] := by
  have hm : mainModel a env = ⟨es ++ [Event.abortUrlError], [], [], none,
      Except.error (RunError.panicked ("RTMP url error: " ++ e))⟩ := by
    simp [mainModel, hclap, hres, herr]
  refine ⟨by rw [hm], by rw [hm], ?_, by rw [hm],
    by simp [reportedUrlErrors, herr]⟩
  rw [hm]
  intro ev hev
  rcases List.mem_append.mp hev with hev | hev
  · exact (resolveUrlStrings_events_benign a env ev (by rw [hres]; exact hev)).1
  · simp at hev
    subst hev
    rfl

/-- The arguments of the C1 witness run: list-file mode. -/
def argsC1w : Args := ⟨some "a.flv", false, none, none, some "t.txt"⟩

/-- The environment of the C1 witness run: one malformed destination. -/
def envC1w : Env := ⟨true, ["nourl"], true, [], fun _ => 0⟩

/-- C1 witness at a single malformed destination. -/
theorem C1_abort_reports_first_error_witness :
    (mainModel argsC1w envC1w).exit =
      Except.error (RunError.panicked "RTMP url error: unsupported scheme: nourl") ∧
    (mainModel argsC1w envC1w).published = [] :=
  have h := C1_abort_reports_first_error argsC1w envC1w [Event.openListFile]
    ["nourl"] "unsupported scheme: nourl" (by decide) (by decide) (by decide)
  ⟨h.1, h.2.2.2.1⟩

/-! ### C7: the extension check is not case-insensitive -/

/-- The arguments of the C7 counterexample run: input file "test.Flv". -/
def argsC7 : Args := ⟨some "test.Flv", false, some "1", some "rtmp://h/app/s_", none⟩

/-- C7 counterexample: "test.Flv" has the supported extension up to letter
case, yet the pre-flight check rejects it and the run aborts with the
unsupported-format panic. -/
theorem C7_counterexample :
    specExtMatchesCaseInsensitive "test.Flv" = true ∧
    inputCheckOk "test.Flv" = false ∧
    (mainModel argsC7 envEmpty).exit =
      Except.error (RunError.panicked "Only FLV files are supported") := by decide

/-- C7 amended: the pre-flight check accepts exactly the literal extensions
".flv" and ".FLV"; for any input path ending in neither (mixed case such as
".Flv" included), the run aborts with the unsupported-format panic before the
input file is opened and before any network activity. -/
theorem C7_extension_check (a : Args) (env : Env) (es : List Event)
    (us : List String)
    (hclap : clapCheck a = none)
    (hres : resolveUrlStrings a env = (es, Except.ok us))
    (hok : firstUrlError (us.map parse_rtmp_url) = none)
    (hbad : (strEndsWith (a.input.getD "") ".flv"
        || strEndsWith (a.input.getD "") ".FLV") = false) :
    (mainModel a env).exit =
      Except.error (RunError.panicked "Only FLV files are supported") ∧
    Event.openInput ∉ (mainModel a env).events ∧
    (∀ ev ∈ (mainModel a env).events, isNetworkEv ev = false) ∧
    (mainModel a env).published = [] := by
  have hbad' : inputCheckOk (a.input.getD "") = false := hbad
  have hm : mainModel a env = ⟨es, [], [], none,
      Except.error (RunError.panicked "Only FLV files are supported")⟩ := by
    simp [mainModel, hclap, hres, hok, hbad']
  refine ⟨by rw [hm], ?_, ?_, by rw [hm]⟩
  · rw [hm]
    intro hmem
    rcases resolveUrlStrings_events a env with h | h <;>
      rw [hres] at h <;> simp at h <;> rw [h] at hmem <;> simp at hmem
  · rw [hm]
    intro ev hev
    exact (resolveUrlStrings_events_benign a env ev (by rw [hres]; exact hev)).1

/-- The arguments of the C7 witness run: input file "movie.mp4". -/
def argsC7w : Args := ⟨some "movie.mp4", false, some "1", some "rtmp://h/app/s_", none⟩

/-- C7 witness at input path "movie.mp4". -/
theorem C7_extension_check_witness :
    (mainModel argsC7w envEmpty).exit =
      Except.error (RunError.panicked "Only FLV files are supported") ∧
    Event.openInput ∉ (mainModel argsC7w envEmpty).events :=
  have h := C7_extension_check argsC7w envEmpty []
    (genUrls "rtmp://h/app/s_" 1) (by decide) (by decide) (by decide) (by decide)
  ⟨h.1, h.2.1⟩

/-! ### C2: a decode-error item ends the broadcast loop instead of being
skipped -/

/-- The arguments of the C2 counterexample run: prefix mode, one destination. -/
def argsC2 : Args := ⟨some "a.flv", false, some "1", some "rtmp://h/app/s_", none⟩

/-- The packet before the corrupt tag in the C2 counterexample stream. -/
def pktC2a : PacketType := PacketType.video [1] 0

/-- The packet after the corrupt tag in the C2 counterexample stream. -/
def pktC2b : PacketType := PacketType.video [2] 40

/-- The environment of the C2 counterexample run: a stream with a decode error
between two good packets, one live client receiver throughout. -/
def envC2 : Env := ⟨true, [], true,
  [Except.ok pktC2a, Except.error "corrupt tag", Except.ok pktC2b], fun _ => 1⟩

/-- C2 counterexample: a single decode-error item ends the broadcast loop: the
packet after the corrupt tag is never published, so the tag is not skipped
with the loop continuing, contrary to the claim. -/
theorem C2_counterexample :
    (mainModel argsC2 envC2).published = [pktC2a] ∧
    (mainModel argsC2 envC2).loopExit = some (LoopExit.decodeErr "corrupt tag") ∧
    pktC2b ∉ (mainModel argsC2 envC2).published ∧
    (mainModel argsC2 envC2).exit = Except.ok () := by decide

/-- C2 amended: when the packet stream yields a per-tag decode error, the
broadcast loop exits at that item: the packets before it are published, the
corrupt tag and everything after it are not, and the run proceeds to shutdown
returning success (the error neither panics nor makes the process exit
nonzero, but the loop does not continue past it). -/
theorem C2_decode_error_ends_loop (a : Args) (env : Env) (es : List Event)
    (us : List String) (pre rest : List (Except String PacketType)) (e : String)
    (hclap : clapCheck a = none)
    (hres : resolveUrlStrings a env = (es, Except.ok us))
    (hok : firstUrlError (us.map parse_rtmp_url) = none)
    (hext : inputCheckOk (a.input.getD "") = true)
    (hopen : env.inputOpenOk = true)
    (hstream : env.stream = pre ++ Except.error e :: rest)
    (hpre : ∀ r ∈ pre, Except.isOk r = true) :
    (mainModel a env).published = pre.filterMap Except.toOption ∧
    (mainModel a env).loopExit = some (LoopExit.decodeErr e) ∧
    (mainModel a env).exit = Except.ok () := by
  have hm := mainModel_happy a env es us hclap hres hok hext hopen
  have hl := broadcastLoop_err env pre e rest 0 hpre
  rw [hm]
  simp [hstream, hl]

/-- The arguments of the C2 witness run. -/
def argsC2w : Args := ⟨some "b.flv", false, some "1", some "rtmp://h/app/t_", none⟩

/-- The good packet of the C2 witness stream. -/
def pktC2w : PacketType := PacketType.audio [6] 0

/-- The environment of the C2 witness run: one good packet, then a decode
error. -/
def envC2w : Env := ⟨true, [], true,
  [Except.ok pktC2w, Except.error "bad tag"], fun _ => 1⟩

/-- C2 witness: the loop publishes the packet before the error and stops. -/
theorem C2_decode_error_ends_loop_witness :
    (mainModel argsC2w envC2w).published =
      ([Except.ok pktC2w] : List (Except String PacketType)).filterMap
        Except.toOption ∧
    (mainModel argsC2w envC2w).loopExit = some (LoopExit.decodeErr "bad tag") ∧
    (mainModel argsC2w envC2w).exit = Except.ok () :=
  C2_decode_error_ends_loop argsC2w envC2w [] (genUrls "rtmp://h/app/t_" 1)
    [Except.ok pktC2w] [] "bad tag" (by decide) (by decide) (by decide)
    (by decide) (by decide) (by decide) (by decide)

/-! ### C3: the zero-subscriber quit path never fires -/

/-- The arguments of the C3 run: prefix mode, two destinations. -/
def argsC3 : Args := ⟨some "a.flv", false, some "2", some "rtmp://h/app/s_", none⟩

/-- First packet of the C3 stream. -/
def pktC3a : PacketType := PacketType.video [3] 0

/-- Second packet of the C3 stream. -/
def pktC3b : PacketType := PacketType.audio [4] 40

/-- The environment of the C3 run: every publisher is gone (no live client
receiver at any instant), two good packets in the stream. -/
def envC3 : Env := ⟨true, [], true,
  [Except.ok pktC3a, Except.ok pktC3b], fun _ => 0⟩

/-- C3, evaluated at the failing input: with zero live client receivers the
pacer still publishes every packet and the loop ends only at stream end. The
zero-subscriber quit path can never fire: the count the pacer checks includes
the `_rx` receiver that `main` binds at channel creation and never drops, so
it is positive at every instant. -/
theorem C3_no_zero_subscriber_exit :
    (mainModel argsC3 envC3).published = [pktC3a, pktC3b] ∧
    (mainModel argsC3 envC3).loopExit = some LoopExit.streamEnd ∧
    (mainModel argsC3 envC3).exit = Except.ok () ∧
    ∀ t, 0 < receiverCount envC3 t :=
  ⟨by decide, by decide, by decide, fun t => receiverCount_pos envC3 t⟩

/-! ### C9: concurrency 0 still publishes every packet -/

/-- The arguments of the C9 run: prefix mode with concurrency 0. -/
def argsC9 : Args := ⟨some "a.flv", false, some "0", some "rtmp://h/app/s_", none⟩

/-- The packet of the C9 stream. -/
def pktC9 : PacketType := PacketType.video [9] 0

/-- The environment of the C9 run: one good packet, and (as there are no
clients) no live client receiver. -/
def envC9 : Env := ⟨true, [], true, [Except.ok pktC9], fun _ => 0⟩

/-- C9, evaluated at the failing input: with concurrency 0 the run creates zero
destinations and zero clients and completes with exit zero, but the broadcast
loop does not stop at its first iteration on a zero-subscriber observation:
the retained `_rx` keeps the receiver count at one, the send succeeds, the
packet is published, and the loop runs to stream end. -/
theorem C9_zero_concurrency_still_publishes :
    (mainModel argsC9 envC9).clients = [] ∧
    (mainModel argsC9 envC9).published = [pktC9] ∧
    (mainModel argsC9 envC9).loopExit = some LoopExit.streamEnd ∧
    (mainModel argsC9 envC9).exit = Except.ok () := by decide

/-! ### C5: one client per destination line -/

/-- C5: for a valid destination-list file of M lines, the run creates exactly M
clients, one per line in order, each owning its own subscription (the
subscription numbers are exactly 0..M-1), and the total number of connection
attempts is M. -/
theorem C5_one_client_per_line (a : Args) (env : Env) (path ip : String)
    (hin : a.input = some ip) (hp : a.pfx = none) (hc : a.concurrency = none)
    (hd : a.destListFile = some path) (hopen : env.destOpenOk = true)
    (hall : ∀ l ∈ env.destLines, Except.isOk (parse_rtmp_url l) = true)
    (hext : inputCheckOk ip = true) (hiopen : env.inputOpenOk = true) :
    (mainModel a env).clients.length = env.destLines.length ∧
    (mainModel a env).clients.map Client.url =
      env.destLines.filterMap (fun l => Except.toOption (parse_rtmp_url l)) ∧
    (mainModel a env).clients.map Client.sub =
      List.range env.destLines.length ∧
    ((mainModel a env).clients.map connectionAttempts).sum =
      env.destLines.length := by
  have hclap : clapCheck a = none := by simp [clapCheck, hin, hp, hc, hd]
  have hres : resolveUrlStrings a env =
      ([Event.openListFile], Except.ok env.destLines) := by
    simp [resolveUrlStrings, hp, hd, hopen]
  have hallmap : ∀ r ∈ env.destLines.map parse_rtmp_url,
      Except.isOk r = true := by
    intro r hr
    obtain ⟨l, hl, rfl⟩ := List.mem_map.mp hr
    exact hall l hl
  have hok := firstUrlError_none_of_all_ok _ hallmap
  have hext' : inputCheckOk (a.input.getD "") = true := by rw [hin]; exact hext
  have hm := mainModel_happy a env _ _ hclap hres hok hext' hiopen
  have hlen : ((env.destLines.map parse_rtmp_url).filterMap
      Except.toOption).length = env.destLines.length := by
    rw [filterMap_toOption_length _ hallmap, List.length_map]
  rw [hm]
  refine ⟨?_, ?_, ?_, ?_⟩
  · rw [spawnClients_length]
    exact hlen
  · rw [spawnClients, spawnClientsFrom_map_url, List.filterMap_map]
    rfl
  · rw [spawnClients_map_sub, hlen]
  · rw [sum_connectionAttempts, spawnClients_length, hlen]

/-- The arguments of the C5 witness run: list-file mode. -/
def argsC5w : Args := ⟨some "a.flv", false, none, none, some "dests.txt"⟩

/-- The environment of the C5 witness run: two valid destination lines. -/
def envC5w : Env :=
  ⟨true, ["rtmp://h/app/k1", "rtmp://h/app/k2"], true, [], fun _ => 2⟩

/-- C5 witness at a two-line destination file. -/
theorem C5_one_client_per_line_witness :
    (mainModel argsC5w envC5w).clients.length = 2 ∧
    (mainModel argsC5w envC5w).clients.map Client.sub = List.range 2 :=
  have h := C5_one_client_per_line argsC5w envC5w "dests.txt" "a.flv"
    rfl rfl rfl rfl rfl (by decide) (by decide) rfl
  ⟨h.1, h.2.2.1⟩

/-! ### C4: all setup precedes the first publish -/

/-- Every run's event trace splits into a publish-free part followed by
publish-only (non-setup) events; a run that published anything has the
awaited-clients event and the subscription event of every client in the
publish-free part. -/
theorem mainModel_split (a : Args) (env : Env) :
    ∃ xs ys,
      (mainModel a env).events = xs ++ ys ∧
      (∀ e ∈ xs, isPublishEv e = false) ∧
      (∀ e ∈ ys, isSetupEv e = false ∧ isPublishEv e = true) ∧
      ((mainModel a env).published ≠ [] →
        Event.awaitClients ∈ xs ∧
        ∀ k, k < (mainModel a env).clients.length →
          Event.subscribe k ∈ xs) := by
  cases hclap : clapCheck a with
  | some e =>
    refine ⟨[], [], ?_, ?_, ?_, ?_⟩ <;> simp [mainModel, hclap]
  | none =>
    cases hres : resolveUrlStrings a env with
    | mk es r =>
      have hbenign : ∀ ev ∈ es, isPublishEv ev = false := fun ev hev =>
        (resolveUrlStrings_events_benign a env ev (by rw [hres]; exact hev)).2.1
      cases r with
      | error e =>
        refine ⟨es, [], ?_, hbenign, ?_, ?_⟩ <;> simp [mainModel, hclap, hres]
      | ok us =>
        cases hfe : firstUrlError (us.map parse_rtmp_url) with
        | some e =>
          refine ⟨es ++ [Event.abortUrlError], [], ?_, ?_, ?_, ?_⟩
          · simp [mainModel, hclap, hres, hfe]
          · intro ev hev
            rcases List.mem_append.mp hev with h | h
            · exact hbenign ev h
            · simp at h
              subst h
              rfl
          · simp
          · simp [mainModel, hclap, hres, hfe]
        | none =>
          cases hext : inputCheckOk (a.input.getD "") with
          | false =>
            refine ⟨es, [], ?_, hbenign, ?_, ?_⟩ <;>
              simp [mainModel, hclap, hres, hfe, hext]
          | true =>
            cases hopen : env.inputOpenOk with
            | false =>
              refine ⟨es ++ [Event.openInput], [], ?_, ?_, ?_, ?_⟩
              · simp [mainModel, hclap, hres, hfe, hext, hopen]
              · intro ev hev
                rcases List.mem_append.mp hev with h | h
                · exact hbenign ev h
                · simp at h
                  subst h
                  rfl
              · simp
              · simp [mainModel, hclap, hres, hfe, hext, hopen]
            | true =>
              have hm := mainModel_happy a env es us hclap hres hfe hext hopen
              refine ⟨es ++ [Event.openInput]
                  ++ setupEvents
                    ((us.map parse_rtmp_url).filterMap Except.toOption).length
                  ++ [Event.awaitClients],
                (List.range (broadcastLoop env env.stream 0).1.length).map
                  Event.publish, ?_, ?_, ?_, ?_⟩
              · rw [hm]
              · intro ev hev
                rcases List.mem_append.mp hev with h | h
                · rcases List.mem_append.mp h with h | h
                  · rcases List.mem_append.mp h with h | h
                    · exact hbenign ev h
                    · simp at h
                      subst h
                      rfl
                  · exact setupEvents_no_publish _ ev h
                · simp at h
                  subst h
                  rfl
              · intro ev hev
                obtain ⟨k, _, rfl⟩ := List.mem_map.mp hev
                exact ⟨rfl, rfl⟩
              · intro _
                refine ⟨List.mem_append_right _ (by simp), ?_⟩
                intro k hk
                rw [hm] at hk
                have hk' : k <
                    ((us.map parse_rtmp_url).filterMap Except.toOption).length := by
                  simpa [spawnClients_length] using hk
                exact List.mem_append_left _ (List.mem_append_right _
                  (subscribe_mem_setupEvents _ k hk'))

/-- C4: in any run, every setup event (creating a subscription, creating a
client, awaiting all client setup futures) comes strictly before every send
into the distribution channel; and a run that published anything awaited all
client setup futures and created the subscription of every client before that
first send. -/
theorem C4_setup_before_publish (a : Args) (env : Env) :
    (∀ i j, i < (mainModel a env).events.length →
      j < (mainModel a env).events.length →
      isSetupEv ((mainModel a env).events.getD i Event.openInput) = true →
      isPublishEv ((mainModel a env).events.getD j Event.openInput) = true →
      i < j) ∧
    ((mainModel a env).published ≠ [] →
      Event.awaitClients ∈ (mainModel a env).events ∧
      ∀ k, k < (mainModel a env).clients.length →
        Event.subscribe k ∈ (mainModel a env).events) := by
  obtain ⟨xs, ys, hev, hxs, hys, hpub⟩ := mainModel_split a env
  constructor
  · intro i j hi hj hsi hpj
    rw [hev] at hi hj hsi hpj
    rw [List.length_append] at hi hj
    have hxi : i < xs.length := by
      by_contra hge
      push_neg at hge
      rw [List.getD_append_right _ _ _ _ hge] at hsi
      have hylt : i - xs.length < ys.length := by omega
      rw [List.getD_eq_getElem _ _ hylt] at hsi
      have := (hys _ (List.getElem_mem hylt)).1
      rw [this] at hsi
      exact Bool.false_ne_true hsi
    have hxj : xs.length ≤ j := by
      by_contra hlt
      push_neg at hlt
      rw [List.getD_append _ _ _ _ hlt] at hpj
      rw [List.getD_eq_getElem _ _ hlt] at hpj
      have := hxs _ (List.getElem_mem hlt)
      rw [this] at hpj
      exact Bool.false_ne_true hpj
    omega
  · intro hne
    obtain ⟨h1, h2⟩ := hpub hne
    exact ⟨by rw [hev]; exact List.mem_append_left _ h1,
      fun k hk => by rw [hev]; exact List.mem_append_left _ (h2 k hk)⟩

/-- The arguments of the C4 witness run: prefix mode, one destination. -/
def argsC4w : Args := ⟨some "a.flv", false, some "1", some "rtmp://h/app/s_", none⟩

/-- The packet of the C4 witness stream. -/
def pktC4 : PacketType := PacketType.audio [5] 0

/-- The environment of the C4 witness run: one packet, one live client. -/
def envC4 : Env := ⟨true, [], true, [Except.ok pktC4], fun _ => 1⟩

/-- C4 witness: in the concrete run the subscription event (index 1) precedes
the publish event (index 4), and the awaited-clients event is in the trace. -/
theorem C4_setup_before_publish_witness :
    isSetupEv ((mainModel argsC4w envC4).events.getD 1 Event.openInput) = true ∧
    isPublishEv ((mainModel argsC4w envC4).events.getD 4 Event.openInput) = true ∧
    (1 : Nat) < 4 ∧
    Event.awaitClients ∈ (mainModel argsC4w envC4).events :=
  ⟨by decide, by decide,
    (C4_setup_before_publish argsC4w envC4).1 1 4 (by decide) (by decide)
      (by decide) (by decide),
    ((C4_setup_before_publish argsC4w envC4).2 (by decide)).1⟩

end Waterfall
